import Mathlib

/-!
Shallow embedding of the simulation core of the block-war game canvas
(the game-canvas module: terrain smoothing, A* pathfinding, bases,
buildings, units, combat capture, economy, AI construction, and the
player command handlers), together with proofs about the claims of the
specification.  Pixel positions (JS floating-point numbers holding
integral or fractional coordinates) are modelled as rationals; unit
counts, money, population and timers are integers, as every mutation in
the source steps them by integral amounts.
-/

namespace BlockWar

/-- TerrainType enum from types.ts. -/
inductive TerrainType where
  | WATER
  | SAND
  | GRASS
  | FOREST
  | HILL
  | MOUNTAIN
deriving DecidableEq, Repr

/-- OwnerType enum from types.ts. -/
inductive OwnerType where
  | PLAYER
  | AI
  | NEUTRAL
deriving DecidableEq, Repr

/-- BuildingType enum from types.ts. -/
inductive BuildingType where
  | TOWER
  | BARRACKS
  | HOUSE
deriving DecidableEq, Repr

/-- Grid / cell coordinates (the Point interface of types.ts, at the
integral uses: path waypoints and territory cells). -/
structure Point where
  x : ℤ
  y : ℤ
deriving DecidableEq, Repr

namespace COLORS

def PLAYER : String := "#00E436"

def NEUTRAL : String := "#9CA3AF"

def ENEMY_1 : String := "#FF004D"

def ENEMY_2 : String := "#FFA300"

def ENEMY_3 : String := "#FFEC27"

def ENEMY_4 : String := "#83769C"

end COLORS

namespace COSTS

def HOUSE : ℤ := 100

def TOWER : ℤ := 250

def BARRACKS : ℤ := 300

def SOLDIER : ℤ := 40

end COSTS

namespace ECO

def STARTING_MONEY : ℤ := 200

def POP_GROWTH_RATE : ℤ := 150

def TAX_RATE : ℤ := 300

def TAX_PER_POP : ℚ := 5/100

def BASE_START_MAX_POP : ℤ := 100

def POP_PER_LEVEL : ℤ := 150

def POP_PER_HOUSE : ℤ := 80

def UNIT_RATIO : ℚ := 1/10

end ECO

namespace LEVEL_THRESHOLDS

def LVL_2 : ℕ := 1

def LVL_3 : ℕ := 3

def LVL_4 : ℕ := 6

def LVL_5 : ℕ := 10

def LVL_6 : ℕ := 15

end LEVEL_THRESHOLDS

/-- CONFIG.spawnRate from constants.ts. -/
def spawnRate : ℤ := 800

/-- CONFIG.baseRadius from constants.ts. -/
def baseRadius : ℚ := 28

/-- BUILDING_RADIUS from constants.ts. -/
def BUILDING_RADIUS : ℚ := 12

/-- CELL_SIZE constant of the game-canvas module. -/
def CELL_SIZE : ℚ := 8

/-- getOwnerTypeByColor: maps a faction color to an owner type;
anything but the player color is treated as AI. -/
def getOwnerTypeByColor (color : String) : OwnerType :=
  if color = COLORS.PLAYER then OwnerType.PLAYER else OwnerType.AI

/-- The Base class fields (game-canvas module).  The Path2D territory
shape is a render-side artifact and is not modelled; territoryCells and
neighbors (a set of base object references, here the bases' unique ids)
carry the simulation-relevant state. -/
structure Base where
  id : String
  x : ℚ
  y : ℚ
  color : String
  units : ℤ
  ownerType : OwnerType
  radius : ℚ
  level : ℤ
  money : ℤ
  population : ℤ
  maxPopulation : ℤ
  popGrowTimer : ℤ
  taxTimer : ℤ
  hasBarracks : Bool
  spawnTimer : ℤ
  visualPulse : ℤ
  territoryCells : List Point
  neighbors : List String
deriving DecidableEq, Repr

/-- The Building class fields (game-canvas module). -/
structure Building where
  id : String
  type : BuildingType
  x : ℚ
  y : ℚ
  ownerBaseId : String
  color : String
  shootTimer : ℤ
deriving DecidableEq, Repr

/-- The Unit class fields (game-canvas module), named UnitM to avoid the
Lean builtin.  The target base reference is carried by its unique id. -/
structure UnitM where
  x : ℚ
  y : ℚ
  targetId : String
  color : String
  path : List Point
  pathIndex : ℕ
  dead : Bool
  offsetX : ℚ
  offsetY : ℚ
deriving DecidableEq, Repr

/-- The Unit constructor: new Unit(source, target, color, path, offset). -/
def UnitM.create (source target : Base) (color : String) (path : List Point)
    (offset : ℚ × ℚ) : UnitM :=
  { x := source.x + offset.1
    y := source.y + offset.2
    targetId := target.id
    color := color
    path := path
    pathIndex := 0
    dead := false
    offsetX := offset.1
    offsetY := offset.2 }

/-- Base.getUnitCap: Math.floor(population * ECO.UNIT_RATIO). -/
def Base.getUnitCap (b : Base) : ℤ :=
  Int.floor ((b.population : ℚ) * ECO.UNIT_RATIO)

/-- Base.recalculateStats(buildings): recounts houses and barracks owned
by this base, re-derives the level from the house count against
LEVEL_THRESHOLDS, and recomputes maxPopulation. -/
def Base.recalculateStats (b : Base) (buildings : List Building) : Base :=
  let houses :=
    (buildings.filter
      (fun bd => bd.ownerBaseId == b.id && bd.type == BuildingType.HOUSE)).length
  let hasB :=
    buildings.any (fun bd => bd.ownerBaseId == b.id && bd.type == BuildingType.BARRACKS)
  let lvl : ℤ :=
    if houses ≥ LEVEL_THRESHOLDS.LVL_6 then 6
    else if houses ≥ LEVEL_THRESHOLDS.LVL_5 then 5
    else if houses ≥ LEVEL_THRESHOLDS.LVL_4 then 4
    else if houses ≥ LEVEL_THRESHOLDS.LVL_3 then 3
    else if houses ≥ LEVEL_THRESHOLDS.LVL_2 then 2
    else 1
  { b with
      hasBarracks := hasB
      level := lvl
      maxPopulation :=
        ECO.BASE_START_MAX_POP + (lvl - 1) * ECO.POP_PER_LEVEL
          + (houses : ℤ) * ECO.POP_PER_HOUSE }

/-- Step 1 of Base.update: natural militia spawn, strictly capped by the
unit cap, only for non-neutral bases. -/
def Base.naturalSpawn (b : Base) : Base :=
  if b.ownerType ≠ OwnerType.NEUTRAL then
    if b.units < b.getUnitCap then
      if b.spawnTimer + 1 ≥ spawnRate then
        { b with units := b.units + 1, spawnTimer := 0 }
      else
        { b with spawnTimer := b.spawnTimer + 1 }
    else b
  else b

/-- Step 2 of Base.update: population growth toward maxPopulation,
only for non-neutral bases. -/
def Base.popGrow (b : Base) : Base :=
  if b.ownerType ≠ OwnerType.NEUTRAL then
    if b.population < b.maxPopulation then
      if b.popGrowTimer + 1 ≥ ECO.POP_GROWTH_RATE then
        { b with population := b.population + 1, popGrowTimer := 0 }
      else
        { b with popGrowTimer := b.popGrowTimer + 1 }
    else b
  else b

/-- Step 3 of Base.update: tax generation, only for non-neutral bases.
Returns the updated base together with the income routed to the global
player wallet via onIncome (0 when no income event fires). -/
def Base.taxStep (b : Base) : Base × ℤ :=
  if b.ownerType ≠ OwnerType.NEUTRAL then
    if b.taxTimer + 1 ≥ ECO.TAX_RATE then
      let income := Int.floor ((b.population : ℚ) * ECO.TAX_PER_POP)
      if income > 0 then
        if b.ownerType = OwnerType.PLAYER then
          ({ b with taxTimer := 0 }, income)
        else
          ({ b with taxTimer := 0, money := b.money + income }, 0)
      else
        ({ b with taxTimer := 0 }, 0)
    else
      ({ b with taxTimer := b.taxTimer + 1 }, 0)
  else (b, 0)

/-- AI recruiting block of Base.update: with barracks, below cap and
with funds, recruit with low probability (the Math.random() < 0.05 draw
is the explicit argument r). -/
def Base.aiRecruit (b : Base) (r : Bool) : Base :=
  if b.ownerType = OwnerType.AI then
    if b.hasBarracks && decide (b.units < b.getUnitCap)
        && decide (b.money ≥ COSTS.SOLDIER) then
      if r then
        { b with money := b.money - COSTS.SOLDIER, units := b.units + 1,
                 visualPulse := 5 }
      else b
    else b
  else b

/-- Unit.hitTarget together with the onBaseCaptured callback of the
game-canvas component: reinforcement, attrition, or capture with the
scorched-earth building filter and the stats recalculation.  uColor is
the arriving unit's color; returns the updated target base and building
list. -/
def hitTarget (uColor : String) (target : Base) (buildings : List Building) :
    Base × List Building :=
  if target.color = uColor then
    ({ target with units := target.units + 1 }, buildings)
  else
    let t1 : Base := { target with units := target.units - 1 }
    if t1.units ≤ 0 then
      let cap : Base :=
        { t1 with
            ownerType := getOwnerTypeByColor uColor
            color := uColor
            units := 1
            visualPulse := 20
            population := 40
            level := 1
            maxPopulation := ECO.BASE_START_MAX_POP
            money := 0 }
      let bl := buildings.filter (fun bd => bd.ownerBaseId != target.id)
      (cap.recalculateStats bl, bl)
    else
      (t1, buildings)

/-- Reading the terrain grid: map[y][x], with the out-of-range default
WATER (the A* search and the placement checks only read in-bounds cells,
where the default never applies). -/
def terrainAt (map : List (List TerrainType)) (x y : ℤ) : TerrainType :=
  (map.getD y.toNat []).getD x.toNat TerrainType.WATER

/-- The A* Node record.  The JS object graph of parent references is a
finite tree, represented as a nested inductive. -/
inductive PNode where
  | mk : ℤ → ℤ → ℤ → ℤ → ℤ → Option PNode → PNode
deriving Repr

def PNode.x : PNode → ℤ
  | .mk v _ _ _ _ _ => v

def PNode.y : PNode → ℤ
  | .mk _ v _ _ _ _ => v

def PNode.f : PNode → ℤ
  | .mk _ _ v _ _ _ => v

def PNode.g : PNode → ℤ
  | .mk _ _ _ v _ _ => v

def PNode.h : PNode → ℤ
  | .mk _ _ _ _ v _ => v

def PNode.parent : PNode → Option PNode
  | .mk _ _ _ _ _ p => p

/-- The path-reconstruction walk of findPath: push the points from the
current node up the parent chain (the JS loop builds this list and then
reverses it). -/
def PNode.chain : PNode → List Point
  | .mk x y _ _ _ none => [⟨x, y⟩]
  | .mk x y _ _ _ (some p) => ⟨x, y⟩ :: p.chain

def defaultPNode : PNode := .mk 0 0 0 0 0 none

def nthNode (l : List PNode) (i : ℕ) : PNode :=
  l.getD i defaultPNode

/-- The Manhattan heuristic of the A* search. -/
def heuristic (a b : Point) : ℤ :=
  |a.x - b.x| + |a.y - b.y|

/-- The lowest-f scan of findPath: lowInd starts at 0 and moves to i
whenever openSet[i].f is strictly smaller. -/
def lowIndScan (openSet : List PNode) : List ℕ → ℕ → ℕ
  | [], acc => acc
  | i :: rest, acc =>
      lowIndScan openSet rest
        (if (nthNode openSet i).f < (nthNode openSet acc).f then i else acc)

def lowInd (openSet : List PNode) : ℕ :=
  lowIndScan openSet (List.range openSet.length) 0

/-- The neighbor-processing body of the A* inner for-loop, for one of
the four direction offsets d = (dx, dy): bounds check, terrain
passability check, closed-set check, then tentative-g comparison with
push (for a new coordinate) or in-place update (for a better g). -/
def processNeighbor (map : List (List TerrainType)) (cols rows : ℤ)
    (endP : Point) (closed : List Point) (current : PNode)
    (openSet : List PNode) (d : ℤ × ℤ) : List PNode :=
  let nx := current.x + d.1
  let ny := current.y + d.2
  if nx < 0 ∨ ny < 0 ∨ nx ≥ cols ∨ ny ≥ rows then openSet
  else if terrainAt map nx ny = TerrainType.WATER
      ∨ terrainAt map nx ny = TerrainType.MOUNTAIN then openSet
  else if (⟨nx, ny⟩ : Point) ∈ closed then openSet
  else
    let gScore := current.g + 1
    let hScore := heuristic ⟨nx, ny⟩ endP
    match openSet.findIdx? (fun n => n.x == nx && n.y == ny) with
    | none =>
        openSet ++ [PNode.mk nx ny (gScore + hScore) gScore hScore (some current)]
    | some i =>
        if gScore < (nthNode openSet i).g then
          openSet.set i (PNode.mk nx ny (gScore + hScore) gScore hScore (some current))
        else openSet

/-- The four direction offsets of the A* search, in source order. -/
def aStarDirs : List (ℤ × ℤ) := [(0, -1), (0, 1), (-1, 0), (1, 0)]

/-- The A* while-loop of findPath.  The fuel argument is the remaining
iteration budget MAX_ITERATIONS - iterations; the loop body runs only
while the open set is non-empty and the budget is positive, and the
exhausted loop falls through to the empty-path return. -/
def aStarLoop (map : List (List TerrainType)) (cols rows : ℤ) (endP : Point) :
    ℕ → List PNode → List Point → List Point
  | 0, _, _ => []
  | _ + 1, [], _ => []
  | fuel + 1, n :: rest, closed =>
      let openSet := n :: rest
      let li := lowInd openSet
      let current := nthNode openSet li
      if |current.x - endP.x| ≤ 1 ∧ |current.y - endP.y| ≤ 1 then
        current.chain.reverse
      else
        let os1 := openSet.eraseIdx li
        let closed1 := (⟨current.x, current.y⟩ : Point) :: closed
        let os2 := aStarDirs.foldl (processNeighbor map cols rows endP closed1 current) os1
        aStarLoop map cols rows endP fuel os2 closed1

/-- The safety limit of findPath. -/
def MAX_ITERATIONS : ℕ := 3000

/-- findPath(start, end, map, cols, rows): A* over the 4-connected grid,
unit step cost, Manhattan heuristic, Water and Mountain blocked, success
within Chebyshev distance 1 of the goal, empty path on exhaustion. -/
def findPath (start endP : Point) (map : List (List TerrainType))
    (cols rows : ℤ) : List Point :=
  aStarLoop map cols rows endP MAX_ITERATIONS
    [PNode.mk start.x start.y 0 0 0 none] []

/-- One accumulation step of the waterCount counter of the smoothing
loop in generateTerrain, folded over a list of (dx, dy) offsets. -/
def countWaterFold (map : List (List TerrainType)) (x y : ℤ)
    (l : List (ℤ × ℤ)) : ℕ :=
  l.foldl
    (fun acc d =>
      if terrainAt map (x + d.1) (y + d.2) = TerrainType.WATER then acc + 1
      else acc) 0

/-- The (dx, dy) offsets scanned before the center in the smoothing
loop of generateTerrain (dy outer from -1, dx inner from -1). -/
def nbrsBefore : List (ℤ × ℤ) := [(-1, -1), (0, -1), (1, -1), (-1, 0)]

/-- The (dx, dy) offsets scanned after the center. -/
def nbrsAfter : List (ℤ × ℤ) := [(1, 0), (-1, 1), (0, 1), (1, 1)]

/-- The waterCount of the smoothing loop: the source scans dy and dx
from -1 to 1 inclusive, so the center cell itself is counted. -/
def waterCount9 (map : List (List TerrainType)) (x y : ℤ) : ℕ :=
  countWaterFold map x y (nbrsBefore ++ (0, 0) :: nbrsAfter)

/-- The count of Water cells among the 8 proper neighbors (the quantity
the specification text speaks about). -/
def waterCount8 (map : List (List TerrainType)) (x y : ℤ) : ℕ :=
  countWaterFold map x y (nbrsBefore ++ nbrsAfter)

/-- The cell rewrite rule of one smoothing pass in generateTerrain:
non-Water with waterCount ≥ 6 becomes Water, Water with
waterCount ≤ 2 becomes Grass, anything else is copied. -/
def smoothCell (map : List (List TerrainType)) (x y : ℤ) : TerrainType :=
  let wc := waterCount9 map x y
  if terrainAt map x y ≠ TerrainType.WATER ∧ wc ≥ 6 then TerrainType.WATER
  else if terrainAt map x y = TerrainType.WATER ∧ wc ≤ 2 then TerrainType.GRASS
  else terrainAt map x y

/-- One pass of the cellular-automaton smoothing loop of
generateTerrain: newMap starts as a copy of map, and the rewrite rule
is applied (reading the old map) to every interior cell, y from 1 to
rows-2 and x from 1 to cols-2. -/
def smoothPass (map : List (List TerrainType)) (cols rows : ℕ) :
    List (List TerrainType) :=
  (List.range rows).map fun y =>
    (List.range cols).map fun x =>
      if 1 ≤ y ∧ y + 1 < rows ∧ 1 ≤ x ∧ x + 1 < cols then
        smoothCell map (x : ℤ) (y : ℤ)
      else terrainAt map (x : ℤ) (y : ℤ)

/-- Math.floor(v / CELL_SIZE): conversion of a pixel coordinate to a
grid coordinate, as done for the findPath endpoints and the placement
checks. -/
def gridOf (v : ℚ) : ℤ := Int.floor (v / CELL_SIZE)

/-- The precomputed route of a dispatch: findPath between the grid
cells of the source and target base centers. -/
def dispatchPath (source target : Base) (map : List (List TerrainType))
    (cols rows : ℤ) : List Point :=
  findPath ⟨gridOf source.x, gridOf source.y⟩ ⟨gridOf target.x, gridOf target.y⟩
    map cols rows

/-- The three squad-member spawn offsets used at dispatch. -/
def squadOffsets : List (ℚ × ℚ) := [(0, 0), (-4, 4), (4, 4)]

/-- Result of a dispatch attempt: the (possibly updated) source base and
the list of Units pushed into the unit collection. -/
structure DispatchOut where
  source : Base
  created : List UnitM
deriving DecidableEq, Repr

/-- sendSquad(source, target) of the game-canvas component (the dispatch
routine used by the AI policy): adjacency check, garrison check, path
computation, empty-path abort, then the squad-size deduction and the
creation of squadSize Units sharing the target and the path. -/
def sendSquad (source target : Base) (map : List (List TerrainType))
    (cols rows : ℤ) : DispatchOut :=
  if target.id ∉ source.neighbors then ⟨source, []⟩
  else if source.units < 4 then ⟨source, []⟩
  else
    let path := dispatchPath source target map cols rows
    if path = [] then ⟨source, []⟩
    else
      let squadSize : ℤ := 3
      if source.units < squadSize + 1 then ⟨source, []⟩
      else
        ⟨{ source with units := source.units - squadSize },
         squadOffsets.map fun o => UnitM.create source target source.color path o⟩

/-- The dispatch block at the end of handleEnd (the player drag-release
handler), entered once a drop target base has been found: the
target-is-not-source guard, the path computation, and on a non-empty
path with enough garrison the same squad creation as sendSquad.  Unlike
sendSquad, no adjacency check is performed here. -/
def handleEndDispatch (source target : Base) (map : List (List TerrainType))
    (cols rows : ℤ) : DispatchOut :=
  if target.id == source.id then ⟨source, []⟩
  else
    let path := dispatchPath source target map cols rows
    if path.length > 0 then
      let squadSize : ℤ := 3
      if source.units ≥ squadSize + 1 then
        ⟨{ source with units := source.units - squadSize },
         squadOffsets.map fun o => UnitM.create source target source.color path o⟩
      else ⟨source, []⟩
    else ⟨source, []⟩

/-- The log events the simulation reports synchronously to the UI that
matter for the recruit command (onAddLog calls). -/
inductive LogEvent where
  | recruitAtCap (cap : ℤ)
deriving DecidableEq, Repr

/-- Result of the recruit command: selected base after the call, player
wallet after the call, and the log events emitted during the call. -/
structure RecruitResult where
  base : Option Base
  playerMoney : ℤ
  logs : List LogEvent
deriving DecidableEq, Repr

/-- recruitUnit of the imperative-handle command interface: acts on the
currently selected base when player-owned; reports the at-cap rejection
through onAddLog; deducts the soldier cost and increments the garrison
when funds suffice; otherwise falls through without reporting. -/
def recruitUnit : Option Base → ℤ → RecruitResult
  | none, playerMoney => ⟨none, playerMoney, []⟩
  | some sb, playerMoney =>
    if sb.ownerType = OwnerType.PLAYER then
      if sb.units ≥ sb.getUnitCap then
        ⟨some sb, playerMoney, [LogEvent.recruitAtCap sb.getUnitCap]⟩
      else if playerMoney ≥ COSTS.SOLDIER then
        ⟨some { sb with units := sb.units + 1, visualPulse := 5 },
         playerMoney - COSTS.SOLDIER, []⟩
      else ⟨some sb, playerMoney, []⟩
    else ⟨some sb, playerMoney, []⟩

/-- The per-kind building cost table of the build-mode click handler. -/
def buildCost : BuildingType → ℤ
  | .HOUSE => COSTS.HOUSE
  | .TOWER => COSTS.TOWER
  | .BARRACKS => COSTS.BARRACKS

/-- The terrain-kind constraint for a building type, as checked
identically in handleStart, in the build-mode preview, and in
processAIConstruction: Barracks and House on Grass or Forest, Tower on
Hill. -/
def terrainOkFor (bm : BuildingType) (t : TerrainType) : Bool :=
  match bm with
  | .BARRACKS | .HOUSE => t == TerrainType.GRASS || t == TerrainType.FOREST
  | .TOWER => t == TerrainType.HILL

/-- JS truthiness of terrainMap[ty] and terrainMap[ty][tx]: both indices
must denote an existing cell (all terrain enum strings are truthy). -/
def cellDefined (map : List (List TerrainType)) (tx ty : ℤ) : Bool :=
  decide (0 ≤ ty) && decide (ty.toNat < map.length) && decide (0 ≤ tx)
    && decide (tx.toNat < (map.getD ty.toNat []).length)

/-- The build-mode placement block of handleStart (money-relevant
state): cost selection, terrain validity at the clicked cell, collision
with bases and buildings, and the wallet-guarded commit.  The Path2D
point-in-territory hit test is performed by the canvas context and is
passed in as isInsideTerritory; the subsequent stat recalculation of
the selected base does not touch any wallet. -/
def placeBuilding (bm : BuildingType) (sb : Base) (pos : ℚ × ℚ)
    (map : List (List TerrainType)) (bases : List Base)
    (buildings : List Building) (isInsideTerritory : Bool) (newId : String)
    (money : ℤ) : ℤ × List Building :=
  let cost := buildCost bm
  let tx := gridOf pos.1
  let ty := gridOf pos.2
  let isValidTerrain :=
    if cellDefined map tx ty then terrainOkFor bm (terrainAt map tx ty)
    else false
  let isColliding :=
    bases.any
      (fun b => decide ((pos.1 - b.x)^2 + (pos.2 - b.y)^2 < (b.radius + 10)^2))
    || buildings.any
      (fun bd =>
        decide ((pos.1 - bd.x)^2 + (pos.2 - bd.y)^2 < (BUILDING_RADIUS * 2)^2))
  if isInsideTerritory && !isColliding && isValidTerrain
      && decide (money ≥ cost) then
    (money - cost,
     buildings ++
       [{ id := newId, type := bm, x := pos.1, y := pos.2,
          ownerBaseId := sb.id, color := sb.color, shootTimer := 0 }])
  else (money, buildings)

/-- The target-type/cost selection of processAIConstruction; r1 is the
Math.random() < 0.5 draw of the wealthy branch.  Every branch that
selects a type has already checked that the wallet covers its cost. -/
def aiChooseBuild (b : Base) (r1 : Bool) : Option (BuildingType × ℤ) :=
  if b.population ≥ b.maxPopulation - 10 ∧ b.money ≥ COSTS.HOUSE then
    some (BuildingType.HOUSE, COSTS.HOUSE)
  else if b.hasBarracks = false ∧ b.money ≥ COSTS.BARRACKS then
    some (BuildingType.BARRACKS, COSTS.BARRACKS)
  else if b.money > 500 then
    if r1 ∧ b.money ≥ COSTS.TOWER then some (BuildingType.TOWER, COSTS.TOWER)
    else if b.money ≥ COSTS.BARRACKS then
      some (BuildingType.BARRACKS, COSTS.BARRACKS)
    else none
  else none

/-- The candidate-cell acceptance test of processAIConstruction:
terrain kind at the cell, distance from the own base center, and
collision against existing buildings. -/
def aiSpotOk (b : Base) (buildings : List Building)
    (map : List (List TerrainType)) (t : BuildingType) (cell : Point) : Bool :=
  let tx := gridOf (cell.x : ℚ)
  let ty := gridOf (cell.y : ℚ)
  let isValidTerrain :=
    if cellDefined map tx ty then terrainOkFor t (terrainAt map tx ty)
    else false
  if !isValidTerrain then false
  else if decide (((cell.x : ℚ) - b.x)^2 + ((cell.y : ℚ) - b.y)^2
      < (b.radius + 15)^2) then false
  else if buildings.any
      (fun bd =>
        decide (((cell.x : ℚ) - bd.x)^2 + ((cell.y : ℚ) - bd.y)^2
          < (BUILDING_RADIUS * (5/2))^2)) then false
  else true

/-- processAIConstruction for one base: the per-tick skip draw
(Math.random() > 0.02) is rSkip, the candidate cells drawn from the
territory are the candidates argument; on the first acceptable
candidate the cost is deducted, the building is pushed and the stats
are recalculated. -/
def processAIBase (b : Base) (buildings : List Building)
    (map : List (List TerrainType)) (rSkip r1 : Bool)
    (candidates : List Point) (newId : String) : Base × List Building :=
  if b.ownerType ≠ OwnerType.AI then (b, buildings)
  else if rSkip then (b, buildings)
  else
    match aiChooseBuild b r1 with
    | none => (b, buildings)
    | some (t, cost) =>
      match candidates.find? (aiSpotOk b buildings map t) with
      | none => (b, buildings)
      | some cell =>
          let b2 : Base := { b with money := b.money - cost }
          let bl2 := buildings ++
            [{ id := newId, type := t, x := (cell.x : ℚ), y := (cell.y : ℚ),
               ownerBaseId := b.id, color := b.color, shootTimer := 0 }]
          (b2.recalculateStats bl2, bl2)

/-- The house count of Base.recalculateStats. -/
def houseCount (baseId : String) (buildings : List Building) : ℕ :=
  (buildings.filter
    (fun bd => bd.ownerBaseId == baseId && bd.type == BuildingType.HOUSE)).length

/-- The count of all buildings owned by a base (the quantity the
specification text derives the level from). -/
def buildingCount (baseId : String) (buildings : List Building) : ℕ :=
  (buildings.filter (fun bd => bd.ownerBaseId == baseId)).length

/-- The step function over the fixed LEVEL_THRESHOLDS. -/
def levelForCount (n : ℕ) : ℤ :=
  if n ≥ LEVEL_THRESHOLDS.LVL_6 then 6
  else if n ≥ LEVEL_THRESHOLDS.LVL_5 then 5
  else if n ≥ LEVEL_THRESHOLDS.LVL_4 then 4
  else if n ≥ LEVEL_THRESHOLDS.LVL_3 then 3
  else if n ≥ LEVEL_THRESHOLDS.LVL_2 then 2
  else 1

/-- The count of Neutral-owned bases in a base list. -/
def countNeutral (l : List Base) : ℕ :=
  (l.filter (fun b => b.ownerType == OwnerType.NEUTRAL)).length

/-- A unit arrival applied to the base collection: the unit's target
base reference is resolved by id and replaced by the hitTarget result
(object mutation in the source). -/
def applyHitToBases (uColor targetId : String) (bl : List Building)
    (bases : List Base) : List Base :=
  bases.map fun x => if x.id == targetId then (hitTarget uColor x bl).1 else x

/-- The Base class constructor. -/
def Base.create (id : String) (x y : ℚ) (color : String)
    (ownerType : OwnerType) : Base :=
  { id := id
    x := x
    y := y
    color := color
    ownerType := ownerType
    radius := baseRadius
    spawnTimer := 0
    visualPulse := 0
    level := 1
    money := ECO.STARTING_MONEY
    units := if ownerType = OwnerType.NEUTRAL then 5 else 10
    population := 40
    maxPopulation := ECO.BASE_START_MAX_POP
    popGrowTimer := 0
    taxTimer := 0
    hasBarracks := false
    territoryCells := []
    neighbors := [] }

/-- Passability of a grid cell for the pathfinder. -/
def passable (map : List (List TerrainType)) (p : Point) : Prop :=
  terrainAt map p.x p.y ≠ TerrainType.WATER ∧
  terrainAt map p.x p.y ≠ TerrainType.MOUNTAIN

instance (map : List (List TerrainType)) (p : Point) :
    Decidable (passable map p) := by
  unfold passable; infer_instance

/-- 4-connected grid adjacency of consecutive waypoints. -/
def gridAdj (a b : Point) : Prop :=
  |a.x - b.x| + |a.y - b.y| = 1

/-- Invariant of the A* open set: every node hangs off a parent chain of
passable, pairwise 4-adjacent cells that ends at the start node. -/
def chainOK (map : List (List TerrainType)) (start : Point) : PNode → Prop
  | .mk x y _ _ _ none => x = start.x ∧ y = start.y
  | .mk x y _ _ _ (some p) =>
      passable map ⟨x, y⟩ ∧ |x - p.x| + |y - p.y| = 1 ∧ chainOK map start p

/-- A 4x4 all-grass map (example data). -/
def cMap4 : List (List TerrainType) :=
  List.replicate 4 (List.replicate 4 TerrainType.GRASS)

/-- A 5x5 all-grass map (example data). -/
def g5 : List (List TerrainType) :=
  List.replicate 5 (List.replicate 5 TerrainType.GRASS)

/-- 3x3 map whose center is Water with exactly two Water cells among its
8 neighbors (example data). -/
def c8map : List (List TerrainType) :=
  [[TerrainType.WATER, TerrainType.GRASS, TerrainType.GRASS],
   [TerrainType.WATER, TerrainType.WATER, TerrainType.GRASS],
   [TerrainType.GRASS, TerrainType.GRASS, TerrainType.GRASS]]

/-- 3x3 map whose center is Grass surrounded by 8 Water neighbors
(example data). -/
def c8map2 : List (List TerrainType) :=
  [[TerrainType.WATER, TerrainType.WATER, TerrainType.WATER],
   [TerrainType.WATER, TerrainType.GRASS, TerrainType.WATER],
   [TerrainType.WATER, TerrainType.WATER, TerrainType.WATER]]

/-- A player base at pixel (12, 12) with no recorded neighbors
(example data). -/
def cSrc : Base := Base.create "player-1" 12 12 COLORS.PLAYER OwnerType.PLAYER

/-- The same base with the neutral target recorded as a neighbor
(example data). -/
def cSrcAdj : Base := { cSrc with neighbors := ["neutral-0"] }

/-- A neutral base at pixel (20, 20) (example data). -/
def cTgt : Base := Base.create "neutral-0" 20 20 COLORS.NEUTRAL OwnerType.NEUTRAL

/-- A player base with an empty garrison (example data). -/
def cBase3 : Base :=
  { Base.create "player-1" 0 0 COLORS.PLAYER OwnerType.PLAYER with units := 0 }

/-- A neutral base holding one unit (example data). -/
def cB2 : Base :=
  { Base.create "neutral-1" 0 0 COLORS.NEUTRAL OwnerType.NEUTRAL with units := 1 }

/-- A building owned by cB2 (example data). -/
def cBld2 : Building :=
  { id := "b1", type := BuildingType.HOUSE, x := 40, y := 40,
    ownerBaseId := "neutral-1", color := COLORS.NEUTRAL, shootTimer := 0 }

/-- A building owned by a base with id base-7 (example data). -/
def cBld7 : Building :=
  { id := "b7", type := BuildingType.BARRACKS, x := 40, y := 40,
    ownerBaseId := "base-7", color := COLORS.ENEMY_1, shootTimer := 0 }

/-- An AI base with id base-7 (example data). -/
def cBase7 : Base := Base.create "base-7" 0 0 COLORS.ENEMY_1 OwnerType.AI

/-- An AI base about to fire its natural spawn timer (example data). -/
def cB4 : Base :=
  { Base.create "enemy-0" 0 0 COLORS.ENEMY_1 OwnerType.AI with
      units := 0, spawnTimer := 799 }

/-! ### Helper lemmas -/

theorem recalculateStats_money (b : Base) (bl : List Building) :
    (b.recalculateStats bl).money = b.money := rfl

theorem recalculateStats_ownerType (b : Base) (bl : List Building) :
    (b.recalculateStats bl).ownerType = b.ownerType := rfl

/-- recalculateStats derives the level as the threshold step function of
the owned house count (shared helper for C2 and C7). -/
theorem recalc_level (b : Base) (bl : List Building) :
    (b.recalculateStats bl).level = levelForCount (houseCount b.id bl) := rfl

theorem recalc_maxPop (b : Base) (bl : List Building) :
    (b.recalculateStats bl).maxPopulation =
      ECO.BASE_START_MAX_POP
        + (levelForCount (houseCount b.id bl) - 1) * ECO.POP_PER_LEVEL
        + (houseCount b.id bl : ℤ) * ECO.POP_PER_HOUSE := rfl

/-- After the scorched-earth filter nothing owned by the captured base
survives any further ownership-filtered count. -/
theorem filter_scorched (i : String) (bl : List Building) (p : Building → Bool) :
    List.filter (fun bd => bd.ownerBaseId == i && p bd)
      (List.filter (fun bd => bd.ownerBaseId != i) bl) = [] := by
  induction bl with
  | nil => rfl
  | cons a l ih =>
      by_cases h : a.ownerBaseId = i <;>
        simp [List.filter_cons, h, ih]

theorem houseCount_scorched (i : String) (bl : List Building) :
    houseCount i (List.filter (fun bd => bd.ownerBaseId != i) bl) = 0 := by
  unfold houseCount
  rw [filter_scorched]
  rfl

theorem cBase3_cap : cBase3.getUnitCap = 4 := by
  show Int.floor ((40 : ℚ) * ECO.UNIT_RATIO) = 4
  norm_num [ ECO.UNIT_RATIO]

theorem cBase3_units_lt : cBase3.units < cBase3.getUnitCap := by
  rw [cBase3_cap]; decide

theorem cB4_cap : cB4.getUnitCap = 4 := by
  show Int.floor ((40 : ℚ) * ECO.UNIT_RATIO) = 4
  norm_num [ ECO.UNIT_RATIO]

theorem cB4_spawn_ne : (cB4.naturalSpawn).units ≠ cB4.units := by
  unfold Base.naturalSpawn
  rw [cB4_cap]
  decide

/-! ### Claims -/

/-- C4: natural spawning never lifts a base's unit count above
floor(population * UNIT_RATIO): whenever the natural spawn timer adds a
unit, the new count is at most the cap computed from the (unchanged)
population. -/
theorem c4_spawn_cap (b : Base) (h : (b.naturalSpawn).units ≠ b.units) :
    (b.naturalSpawn).units ≤ b.getUnitCap ∧
    (b.naturalSpawn).population = b.population := by
  unfold Base.naturalSpawn at h ⊢
  split_ifs at h ⊢ with h1 h2 h3 <;> simp_all <;> omega

theorem c4_spawn_cap_witness :
    (cB4.naturalSpawn).units ≤ cB4.getUnitCap ∧
    (cB4.naturalSpawn).population = cB4.population :=
  c4_spawn_cap cB4 cB4_spawn_ne

/-- C7 counterexample: a base owning exactly one building (a Barracks)
has total building count 1, which the fixed thresholds map to level 2,
but recalculateStats leaves the level at 1 — the source steps the level
on the house count, not on the building count. -/
theorem c7_level_cex :
    buildingCount cBase7.id [cBld7] = 1 ∧
    levelForCount (buildingCount cBase7.id [cBld7]) = 2 ∧
    (cBase7.recalculateStats [cBld7]).level = 1 := by decide

/-- C7 (amended): whenever derived statistics are recomputed, the level
is the threshold step function of the number of Houses owned by the
base (Towers and Barracks do not count). -/
theorem c7_level_step (b : Base) (bl : List Building) :
    (b.recalculateStats bl).level = levelForCount (houseCount b.id bl) :=
  recalc_level b bl

/-- C2: a combat resolution that drives the target's unit count to zero
or below flips owner type and color to the attacking unit's, resets the
unit count to exactly 1, resets population, level and max-population to
their baselines, zeroes the AI wallet, and leaves no building owned by
the captured base in the building list. -/
theorem c2_capture_reset (uColor : String) (b : Base) (bl : List Building)
    (hne : b.color ≠ uColor) (hz : b.units - 1 ≤ 0) :
    (hitTarget uColor b bl).1.ownerType = getOwnerTypeByColor uColor ∧
    (hitTarget uColor b bl).1.color = uColor ∧
    (hitTarget uColor b bl).1.units = 1 ∧
    (hitTarget uColor b bl).1.population = 40 ∧
    (hitTarget uColor b bl).1.level = 1 ∧
    (hitTarget uColor b bl).1.maxPopulation = ECO.BASE_START_MAX_POP ∧
    (hitTarget uColor b bl).1.money = 0 ∧
    ∀ bd ∈ (hitTarget uColor b bl).2, bd.ownerBaseId ≠ b.id := by
  simp only [hitTarget]
  rw [if_neg hne, if_pos (show b.units - 1 ≤ 0 from hz)]
  refine ⟨rfl, rfl, rfl, rfl, ?_, ?_, rfl, ?_⟩
  · simp [recalc_level, houseCount_scorched]
    decide
  · simp [recalc_maxPop, houseCount_scorched]
    decide
  · intro bd hbd
    have h1 := List.of_mem_filter hbd
    simpa using h1

theorem c2_capture_reset_witness :
    (hitTarget COLORS.PLAYER cB2 [cBld2]).1.ownerType
        = getOwnerTypeByColor COLORS.PLAYER ∧
    (hitTarget COLORS.PLAYER cB2 [cBld2]).1.color = COLORS.PLAYER ∧
    (hitTarget COLORS.PLAYER cB2 [cBld2]).1.units = 1 ∧
    (hitTarget COLORS.PLAYER cB2 [cBld2]).1.population = 40 ∧
    (hitTarget COLORS.PLAYER cB2 [cBld2]).1.level = 1 ∧
    (hitTarget COLORS.PLAYER cB2 [cBld2]).1.maxPopulation
        = ECO.BASE_START_MAX_POP ∧
    (hitTarget COLORS.PLAYER cB2 [cBld2]).1.money = 0 ∧
    ∀ bd ∈ (hitTarget COLORS.PLAYER cB2 [cBld2]).2, bd.ownerBaseId ≠ cB2.id :=
  c2_capture_reset COLORS.PLAYER cB2 [cBld2] (by decide) (by decide)

/-- C3 counterexample: a player base with no Barracks anywhere in the
building list, a garrison below its cap, and sufficient funds is NOT
rejected — recruitUnit consults no barracks condition, so the command
succeeds (wallet drops by the soldier cost and the garrison grows),
contradicting the claim that it is rejected exactly when the base lacks
a Barracks or is at cap or lacks funds. -/
theorem c3_recruit_cex :
    (∀ bd ∈ ([] : List Building),
        ¬(bd.ownerBaseId = cBase3.id ∧ bd.type = BuildingType.BARRACKS)) ∧
    cBase3.units < cBase3.getUnitCap ∧
    (100 : ℤ) ≥ COSTS.SOLDIER ∧
    recruitUnit (some cBase3) 100 =
      ⟨some { cBase3 with units := cBase3.units + 1, visualPulse := 5 },
       100 - COSTS.SOLDIER, []⟩ := by
  refine ⟨by simp, cBase3_units_lt, by decide, ?_⟩
  simp only [recruitUnit]
  rw [if_pos (show cBase3.ownerType = OwnerType.PLAYER from rfl),
    if_neg (not_le.mpr cBase3_units_lt), if_pos (by decide)]

/-- C3 (amended): for a player-owned selected base the recruit command
is rejected exactly when the garrison is at the population-derived cap
or the player wallet lacks the soldier cost; only the at-cap rejection
is reported synchronously (with the cap as reason), while the
insufficient-funds rejection silently mutates nothing and reports
nothing, and no Barracks condition is consulted by the core. -/
theorem c3_recruit_rules (sb : Base) (m : ℤ)
    (hp : sb.ownerType = OwnerType.PLAYER) :
    (sb.units ≥ sb.getUnitCap →
      recruitUnit (some sb) m =
        ⟨some sb, m, [LogEvent.recruitAtCap sb.getUnitCap]⟩) ∧
    (sb.units < sb.getUnitCap → m ≥ COSTS.SOLDIER →
      recruitUnit (some sb) m =
        ⟨some { sb with units := sb.units + 1, visualPulse := 5 },
         m - COSTS.SOLDIER, []⟩) ∧
    (sb.units < sb.getUnitCap → m < COSTS.SOLDIER →
      recruitUnit (some sb) m = ⟨some sb, m, []⟩) := by
  refine ⟨?_, ?_, ?_⟩ <;> intro h1 <;> try intro h2
  · simp only [recruitUnit]
    rw [if_pos hp, if_pos h1]
  · simp only [recruitUnit]
    rw [if_pos hp, if_neg (not_le.mpr h1), if_pos h2]
  · simp only [recruitUnit]
    rw [if_pos hp, if_neg (not_le.mpr h1), if_neg (not_le.mpr h2)]

theorem c3_recruit_rules_witness :
    recruitUnit (some cBase3) 10 = ⟨some cBase3, 10, []⟩ :=
  (c3_recruit_rules cBase3 10 rfl).2.2 cBase3_units_lt (by decide)

/-- A unit arrival can only keep or remove Neutral ownership, never
introduce it (helper for C10). -/
theorem hitTarget_neutral (uColor : String) (b : Base) (bl : List Building)
    (h : (hitTarget uColor b bl).1.ownerType = OwnerType.NEUTRAL) :
    b.ownerType = OwnerType.NEUTRAL := by
  by_cases h1 : b.color = uColor
  · simpa [hitTarget, h1] using h
  · by_cases h2 : b.units - 1 ≤ 0
    · exfalso
      have hcap : (hitTarget uColor b bl).1.ownerType = getOwnerTypeByColor uColor := by
        simp [hitTarget, h1, h2, recalculateStats_ownerType]
      rw [hcap] at h
      unfold getOwnerTypeByColor at h
      split_ifs at h <;> simp_all
    · simpa [hitTarget, h1, h2] using h

theorem countNeutral_map_le (f : Base → Base)
    (hf : ∀ x : Base,
      (f x).ownerType = OwnerType.NEUTRAL → x.ownerType = OwnerType.NEUTRAL) :
    ∀ l : List Base, countNeutral (l.map f) ≤ countNeutral l := by
  intro l
  induction l with
  | nil => simp [countNeutral]
  | cons a l ih =>
      by_cases h : (f a).ownerType = OwnerType.NEUTRAL
      · have ha := hf a h
        simp [countNeutral, List.filter_cons, h, ha] at ih ⊢
        omega
      · by_cases ha : a.ownerType = OwnerType.NEUTRAL <;>
          simp [countNeutral, List.filter_cons, h, ha] at ih ⊢ <;> omega

/-- C10: the capture color-to-owner mapping never yields Neutral (it
yields Player exactly for the player color and AI otherwise), so
resolving a unit arrival against the base collection never increases
the number of Neutral-owned bases. -/
theorem c10_no_new_neutral :
    (∀ c : String, getOwnerTypeByColor c ≠ OwnerType.NEUTRAL) ∧
    (∀ c : String,
      getOwnerTypeByColor c = OwnerType.PLAYER ↔ c = COLORS.PLAYER) ∧
    (∀ (uColor targetId : String) (bl : List Building) (bases : List Base),
      countNeutral (applyHitToBases uColor targetId bl bases)
        ≤ countNeutral bases) := by
  refine ⟨?_, ?_, ?_⟩
  · intro c; unfold getOwnerTypeByColor; split_ifs <;> simp
  · intro c; unfold getOwnerTypeByColor
    split_ifs with h <;> simp [h]
  · intro uColor targetId bl bases
    apply countNeutral_map_le
    intro x hx
    by_cases hid : x.id == targetId
    · rw [if_pos hid] at hx
      exact hitTarget_neutral uColor x bl hx
    · rwa [if_neg hid] at hx

/-- aiChooseBuild only selects a building whose cost the AI wallet
already covers (helper for C9). -/
theorem aiChooseBuild_le (b : Base) (r1 : Bool) (t : BuildingType) (c : ℤ)
    (h : aiChooseBuild b r1 = some (t, c)) : c ≤ b.money := by
  unfold aiChooseBuild at h
  split_ifs at h <;>
    simp_all [COSTS.HOUSE, COSTS.BARRACKS, COSTS.TOWER] <;> omega

/-- C9: no operation drives a wallet negative.  Taxation only ever adds
to an AI wallet and routes a non-negative amount to the player wallet;
AI recruitment, AI construction and player placement deduct only behind
a funds check; player recruitment deducts only behind a funds check;
capture sets the seized wallet to exactly zero. -/
theorem c9_money_nonneg :
    (∀ b : Base, b.money ≤ (b.taxStep).1.money ∧ 0 ≤ (b.taxStep).2) ∧
    (∀ (b : Base) (r : Bool), 0 ≤ b.money → 0 ≤ (b.aiRecruit r).money) ∧
    (∀ (b : Base) (bl : List Building) (map : List (List TerrainType))
        (rSkip r1 : Bool) (cand : List Point) (nid : String),
      0 ≤ b.money →
      0 ≤ (processAIBase b bl map rSkip r1 cand nid).1.money) ∧
    (∀ (uColor : String) (b : Base) (bl : List Building),
      0 ≤ b.money → 0 ≤ (hitTarget uColor b bl).1.money) ∧
    (∀ (bm : BuildingType) (sb : Base) (pos : ℚ × ℚ)
        (map : List (List TerrainType)) (bases : List Base)
        (buildings : List Building) (inTer : Bool) (nid : String) (m : ℤ),
      0 ≤ m →
      0 ≤ (placeBuilding bm sb pos map bases buildings inTer nid m).1) ∧
    (∀ (sel : Option Base) (m : ℤ), 0 ≤ m → 0 ≤ (recruitUnit sel m).playerMoney) ∧
    (∀ (m : ℤ) (b : Base), 0 ≤ m → 0 ≤ m + (b.taxStep).2) := by
  have htax : ∀ b : Base, b.money ≤ (b.taxStep).1.money ∧ 0 ≤ (b.taxStep).2 := by
    intro b
    simp only [Base.taxStep]
    split_ifs with h1 h2 h3 h4 <;> simp <;> omega
  refine ⟨htax, ?_, ?_, ?_, ?_, ?_, ?_⟩
  · intro b r hm
    simp only [Base.aiRecruit]
    split_ifs <;> simp_all [COSTS.SOLDIER] <;> omega
  · intro b bl map rSkip r1 cand nid hm
    simp only [processAIBase]
    split_ifs with h1 h2
    · exact hm
    · exact hm
    · rcases hcb : aiChooseBuild b r1 with _ | ⟨t, c⟩
      · simp only [hcb]
        exact hm
      · simp only [hcb]
        rcases hf : cand.find? (aiSpotOk b bl map t) with _ | cell
        · simp only [hf]
          exact hm
        · simp only [hf]
          have hc := aiChooseBuild_le b r1 t c hcb
          simp only [recalculateStats_money]
          omega
  · intro uColor b bl hm
    simp only [hitTarget]
    split_ifs <;> simp_all [recalculateStats_money]
  · intro bm sb pos map bases buildings inTer nid m hm
    simp only [placeBuilding]
    split_ifs with h1 h2 h3
    · simp only [Bool.and_eq_true, decide_eq_true_eq] at h2
      have h4 := h2.2
      show 0 ≤ m - buildCost bm
      omega
    · exact hm
    · simp only [Bool.and_eq_true, decide_eq_true_eq] at h3
      have h4 := h3.2
      show 0 ≤ m - buildCost bm
      omega
    · exact hm
  · intro sel m hm
    cases sel with
    | none => simpa [recruitUnit] using hm
    | some sb =>
        simp only [recruitUnit]
        split_ifs <;> simp_all [COSTS.SOLDIER] <;> omega
  · intro m b hm
    have h2 := (htax b).2
    omega

theorem c9_money_nonneg_witness :
    (0 ≤ (cB4.aiRecruit true).money) ∧
    (0 ≤ (hitTarget COLORS.PLAYER cB2 [cBld2]).1.money) ∧
    (0 ≤ (recruitUnit (some cBase3) 0).playerMoney) ∧
    (0 ≤ (processAIBase cBase7 [] cMap4 true true [] "x").1.money) :=
  ⟨c9_money_nonneg.2.1 cB4 true (by decide),
   c9_money_nonneg.2.2.2.1 COLORS.PLAYER cB2 [cBld2] (by decide),
   c9_money_nonneg.2.2.2.2.2.1 (some cBase3) 0 (by decide),
   c9_money_nonneg.2.2.1 cBase7 [] cMap4 true true [] "x" (by decide)⟩

theorem countWaterFold_shift (map : List (List TerrainType)) (x y : ℤ) :
    ∀ (l : List (ℤ × ℤ)) (a : ℕ),
      l.foldl
        (fun acc d =>
          if terrainAt map (x + d.1) (y + d.2) = TerrainType.WATER then acc + 1
          else acc) a
        = a + l.foldl
        (fun acc d =>
          if terrainAt map (x + d.1) (y + d.2) = TerrainType.WATER then acc + 1
          else acc) 0 := by
  intro l
  induction l with
  | nil => intro a; simp
  | cons d rest ih =>
      intro a
      simp only [List.foldl_cons]
      split_ifs with h
      · rw [ih (a + 1), ih (0 + 1)]
        omega
      · exact ih a

theorem countWaterFold_append (map : List (List TerrainType)) (x y : ℤ)
    (l1 l2 : List (ℤ × ℤ)) :
    countWaterFold map x y (l1 ++ l2)
      = countWaterFold map x y l1 + countWaterFold map x y l2 := by
  unfold countWaterFold
  rw [List.foldl_append, countWaterFold_shift]

/-- The 9-cell waterCount of the smoothing loop exceeds the 8-neighbor
count by exactly one when the center cell itself is Water. -/
theorem waterCount9_split (map : List (List TerrainType)) (x y : ℤ) :
    waterCount9 map x y =
      waterCount8 map x y
        + (if terrainAt map x y = TerrainType.WATER then 1 else 0) := by
  have hsplit : nbrsBefore ++ ((0, 0) : ℤ × ℤ) :: nbrsAfter
      = nbrsBefore ++ ([((0 : ℤ), (0 : ℤ))] ++ nbrsAfter) := rfl
  have hc : countWaterFold map x y [((0 : ℤ), (0 : ℤ))]
      = (if terrainAt map x y = TerrainType.WATER then 1 else 0) := by
    simp [countWaterFold]
  unfold waterCount9 waterCount8
  rw [hsplit, countWaterFold_append, countWaterFold_append,
    countWaterFold_append, hc]
  omega

theorem getD_range_map {α : Type} (f : ℕ → α) (n i : ℕ) (d : α) (h : i < n) :
    ((List.range n).map f).getD i d = f i := by
  simp [List.getD_eq_getElem?_getD, List.getElem?_map, List.getElem?_range h]

/-- Cell access into the result of a smoothing pass: interior cells got
the rewrite rule, border cells are copied. -/
theorem terrainAt_smoothPass (map : List (List TerrainType))
    (cols rows x y : ℕ) (hx : x < cols) (hy : y < rows) :
    terrainAt (smoothPass map cols rows) (x : ℤ) (y : ℤ) =
      if 1 ≤ y ∧ y + 1 < rows ∧ 1 ≤ x ∧ x + 1 < cols then
        smoothCell map (x : ℤ) (y : ℤ)
      else terrainAt map (x : ℤ) (y : ℤ) := by
  unfold smoothPass
  unfold terrainAt
  rw [Int.toNat_natCast, Int.toNat_natCast]
  rw [getD_range_map _ _ _ _ hy, getD_range_map _ _ _ _ hx]
  simp [terrainAt]

/-- C8 counterexample: on a 3x3 map whose interior cell is Water with
exactly 2 of its 8 neighbors Water, the claim says the cell becomes
Grass, but the smoothing pass leaves it Water — the source's waterCount
scans the 3x3 block including the center, so a Water center needs at
most 1 Water neighbor (waterCount ≤ 2 including itself) to revert. -/
theorem c8_smooth_cex :
    terrainAt c8map 1 1 = TerrainType.WATER ∧
    waterCount8 c8map 1 1 = 2 ∧
    terrainAt (smoothPass c8map 3 3) 1 1 = TerrainType.WATER ∧
    terrainAt (smoothPass c8map 3 3) 1 1 ≠ TerrainType.GRASS := by decide

/-- C8 (amended): in each smoothing pass, every interior non-Water cell
with at least 6 of its 8 neighbors Water becomes Water, and every
interior Water cell with at most 1 of its 8 neighbors Water (that is,
waterCount ≤ 2 counting the cell itself) becomes Grass; other interior
cells are copied. -/
theorem c8_smooth_rules (map : List (List TerrainType))
    (cols rows x y : ℕ)
    (hx1 : 1 ≤ x) (hx2 : x + 1 < cols) (hy1 : 1 ≤ y) (hy2 : y + 1 < rows) :
    terrainAt (smoothPass map cols rows) (x : ℤ) (y : ℤ) =
      (if terrainAt map (x : ℤ) (y : ℤ) ≠ TerrainType.WATER
          ∧ 6 ≤ waterCount8 map (x : ℤ) (y : ℤ) then TerrainType.WATER
       else if terrainAt map (x : ℤ) (y : ℤ) = TerrainType.WATER
          ∧ waterCount8 map (x : ℤ) (y : ℤ) ≤ 1 then TerrainType.GRASS
       else terrainAt map (x : ℤ) (y : ℤ)) := by
  rw [terrainAt_smoothPass map cols rows x y (by omega) (by omega)]
  rw [if_pos ⟨hy1, hy2, hx1, hx2⟩]
  unfold smoothCell
  rw [waterCount9_split]
  by_cases hw : terrainAt map (x : ℤ) (y : ℤ) = TerrainType.WATER
  · have hiff : waterCount8 map (x : ℤ) (y : ℤ) + 1 ≤ 2
        ↔ waterCount8 map (x : ℤ) (y : ℤ) ≤ 1 := by omega
    simp [hw, hiff]
  · simp [hw]

theorem c8_smooth_rules_witness :
    terrainAt (smoothPass c8map2 3 3) 1 1 =
      (if terrainAt c8map2 1 1 ≠ TerrainType.WATER
          ∧ 6 ≤ waterCount8 c8map2 1 1 then TerrainType.WATER
       else if terrainAt c8map2 1 1 = TerrainType.WATER
          ∧ waterCount8 c8map2 1 1 ≤ 1 then TerrainType.GRASS
       else terrainAt c8map2 1 1) :=
  c8_smooth_rules c8map2 3 3 1 1 (by decide) (by decide) (by decide) (by decide)

/-- C6: the pathfinder terminates on every input: its search loop is a
recursion on the explicit iteration budget (MAX_ITERATIONS = 3000), the
exhausted budget returns the empty path, and findPath is exactly the
loop started with the full budget on the singleton open set. -/
theorem c6_budget :
    MAX_ITERATIONS = 3000 ∧
    (∀ (map : List (List TerrainType)) (cols rows : ℤ) (endP : Point)
        (os : List PNode) (closed : List Point),
      aStarLoop map cols rows endP 0 os closed = []) ∧
    (∀ (start endP : Point) (map : List (List TerrainType)) (cols rows : ℤ),
      findPath start endP map cols rows =
        aStarLoop map cols rows endP MAX_ITERATIONS
          [PNode.mk start.x start.y 0 0 0 none] []) := by
  refine ⟨rfl, ?_, fun _ _ _ _ _ => rfl⟩
  intro map cols rows endP os closed
  cases os <;> rfl

theorem lowIndScan_lt (os : List PNode) (l : List ℕ) (acc : ℕ)
    (hacc : acc < os.length) (hl : ∀ i ∈ l, i < os.length) :
    lowIndScan os l acc < os.length := by
  induction l generalizing acc with
  | nil => simpa [lowIndScan] using hacc
  | cons i rest ih =>
      simp only [lowIndScan]
      apply ih
      · split_ifs
        · exact hl i (by simp)
        · exact hacc
      · intro j hj
        exact hl j (List.mem_cons_of_mem _ hj)

theorem lowInd_lt (os : List PNode) (h : os ≠ []) : lowInd os < os.length := by
  unfold lowInd
  apply lowIndScan_lt
  · exact List.length_pos.mpr h
  · intro i hi
    exact List.mem_range.mp hi

theorem nthNode_mem (os : List PNode) (i : ℕ) (h : i < os.length) :
    nthNode os i ∈ os := by
  unfold nthNode
  rw [List.getD_eq_getElem?_getD, List.getElem?_eq_getElem h]
  exact List.getElem_mem h

/-- Processing one neighbor direction preserves the open-set chain
invariant: any node it pushes or updates hangs off the current node,
one passable step away. -/
theorem processNeighbor_chainOK (map : List (List TerrainType))
    (cols rows : ℤ) (endP : Point) (closed : List Point) (start : Point)
    (current : PNode) (os : List PNode) (d : ℤ × ℤ)
    (hos : ∀ n ∈ os, chainOK map start n)
    (hcur : chainOK map start current)
    (hd : |d.1| + |d.2| = 1) :
    ∀ n ∈ processNeighbor map cols rows endP closed current os d,
      chainOK map start n := by
  intro n hn
  have hadjx : current.x + d.1 - current.x = d.1 := by ring
  have hadjy : current.y + d.2 - current.y = d.2 := by ring
  simp only [processNeighbor] at hn
  split_ifs at hn with h1 h2 h3
  · exact hos n hn
  · exact hos n hn
  · exact hos n hn
  · push_neg at h2
    have hnew : chainOK map start
        (PNode.mk (current.x + d.1) (current.y + d.2)
          (current.g + 1 + heuristic ⟨current.x + d.1, current.y + d.2⟩ endP)
          (current.g + 1)
          (heuristic ⟨current.x + d.1, current.y + d.2⟩ endP)
          (some current)) := by
      simp only [chainOK]
      refine ⟨⟨h2.1, h2.2⟩, ?_, hcur⟩
      rw [hadjx, hadjy]
      exact hd
    rcases hidx : os.findIdx?
        (fun m => m.x == current.x + d.1 && m.y == current.y + d.2) with _ | i
    · rw [hidx] at hn
      simp only [List.mem_append, List.mem_singleton] at hn
      rcases hn with hn | rfl
      · exact hos n hn
      · exact hnew
    · rw [hidx] at hn
      simp only [] at hn
      split_ifs at hn with h4
      · rcases List.mem_or_eq_of_mem_set hn with hn | rfl
        · exact hos n hn
        · exact hnew
      · exact hos n hn

theorem foldl_processNeighbor_chainOK (map : List (List TerrainType))
    (cols rows : ℤ) (endP : Point) (closed : List Point) (start : Point)
    (current : PNode) (hcur : chainOK map start current) :
    ∀ (dirs : List (ℤ × ℤ)), (∀ d ∈ dirs, |d.1| + |d.2| = 1) →
    ∀ (os : List PNode), (∀ n ∈ os, chainOK map start n) →
    ∀ n ∈ dirs.foldl (processNeighbor map cols rows endP closed current) os,
      chainOK map start n := by
  intro dirs
  induction dirs with
  | nil => intro _ os hos n hn; exact hos n hn
  | cons d rest ih =>
      intro hd os hos n hn
      simp only [List.foldl_cons] at hn
      exact ih (fun e he => hd e (List.mem_cons_of_mem _ he)) _
        (processNeighbor_chainOK map cols rows endP closed start current os d
          hos hcur (hd d (List.mem_cons_self _ _))) n hn

theorem chain_head : ∀ n : PNode, n.chain.head? = some ⟨n.x, n.y⟩
  | .mk _ _ _ _ _ none => rfl
  | .mk _ _ _ _ _ (some _) => rfl

/-- Every point on a chain-invariant node's reconstructed path is the
start cell or a passable cell. -/
theorem chain_all (map : List (List TerrainType)) (start : Point) :
    ∀ n : PNode, chainOK map start n →
      ∀ q ∈ n.chain, q = start ∨ passable map q
  | .mk x y f g h none, hok, q, hq => by
      simp only [chainOK] at hok
      simp only [PNode.chain, List.mem_singleton] at hq
      subst hq
      left
      obtain ⟨h1, h2⟩ := hok
      cases start
      simp_all
  | .mk x y f g h (some p), hok, q, hq => by
      simp only [chainOK] at hok
      simp only [PNode.chain, List.mem_cons] at hq
      rcases hq with rfl | hq
      · right
        exact hok.1
      · exact chain_all map start p hok.2.2 q hq

/-- Consecutive points on a chain-invariant node's reconstructed path
are 4-adjacent. -/
theorem chain_chain (map : List (List TerrainType)) (start : Point) :
    ∀ n : PNode, chainOK map start n → List.Chain' gridAdj n.chain
  | .mk x y f g h none, _ => by simp [PNode.chain]
  | .mk x y f g h (some p), hok => by
      simp only [chainOK] at hok
      simp only [PNode.chain]
      rw [List.chain'_cons']
      refine ⟨?_, chain_chain map start p hok.2.2⟩
      intro b hb
      rw [chain_head p] at hb
      simp only [Option.mem_def, Option.some.injEq] at hb
      subst hb
      exact hok.2.1

/-- The A* loop either fails with the empty path or returns the
reversed reconstruction of a chain-invariant node. -/
theorem aStarLoop_spec (map : List (List TerrainType)) (cols rows : ℤ)
    (endP start : Point) :
    ∀ (fuel : ℕ) (os : List PNode) (closed : List Point),
      (∀ n ∈ os, chainOK map start n) →
      aStarLoop map cols rows endP fuel os closed = [] ∨
      ∃ n, chainOK map start n ∧
        aStarLoop map cols rows endP fuel os closed = n.chain.reverse := by
  intro fuel
  induction fuel with
  | zero => intro os closed _; left; rfl
  | succ fuel ih =>
      intro os closed hos
      rcases os with _ | ⟨n0, rest⟩
      · left; rfl
      · have hcur : chainOK map start (nthNode (n0 :: rest) (lowInd (n0 :: rest))) :=
          hos _ (nthNode_mem _ _ (lowInd_lt _ (by simp)))
        simp only [aStarLoop]
        split_ifs with hgoal
        · right
          exact ⟨nthNode (n0 :: rest) (lowInd (n0 :: rest)), hcur, rfl⟩
        · apply ih
          apply foldl_processNeighbor_chainOK map cols rows endP _ start _ hcur
          · decide
          · intro n hn
            exact hos n ((List.eraseIdx_sublist _ _).subset hn)

/-- C5 (amended): whenever the start cell is itself passable (neither
Water nor Mountain), every waypoint of any path findPath returns is
passable, and consecutive waypoints are always 4-connected
grid-adjacent; without the start-cell hypothesis the start waypoint is
the single possible exception (see the counterexample). -/
theorem c5_path_sound (start endP : Point) (map : List (List TerrainType))
    (cols rows : ℤ) (hstart : passable map start) :
    (∀ q ∈ findPath start endP map cols rows, passable map q) ∧
    List.Chain' gridAdj (findPath start endP map cols rows) := by
  have h0 : ∀ n ∈ [PNode.mk start.x start.y 0 0 0 none], chainOK map start n := by
    intro n hn
    simp only [List.mem_singleton] at hn
    subst hn
    simp [chainOK]
  rcases aStarLoop_spec map cols rows endP start MAX_ITERATIONS _ [] h0 with
    h | ⟨n, hok, heq⟩
  · unfold findPath
    rw [h]
    exact ⟨by simp, by simp⟩
  · unfold findPath
    rw [heq]
    constructor
    · intro q hq
      rw [List.mem_reverse] at hq
      rcases chain_all map start n hok q hq with rfl | hp
      · exact hstart
      · exact hp
    · rw [List.chain'_reverse]
      apply List.Chain'.imp ?_ (chain_chain map start n hok)
      intro a b hab
      show gridAdj b a
      unfold gridAdj at hab ⊢
      rw [abs_sub_comm b.x a.x, abs_sub_comm b.y a.y]
      exact hab

/-- C5 counterexample: with the start cell lying on Water the pathfinder
still returns a non-empty path through that Water cell (the start node
is never passability-checked), so the claim fails for such inputs. -/
theorem c5_path_cex :
    findPath ⟨0, 0⟩ ⟨0, 0⟩ [[TerrainType.WATER]] 1 1 = [⟨0, 0⟩] ∧
    ¬ (∀ q ∈ findPath ⟨0, 0⟩ ⟨0, 0⟩ [[TerrainType.WATER]] 1 1,
        passable [[TerrainType.WATER]] q) := by decide

theorem c5_path_sound_witness :
    passable g5 ⟨1, 1⟩ ∧
    ((∀ q ∈ findPath ⟨1, 1⟩ ⟨1, 3⟩ g5 5 5, passable g5 q) ∧
     List.Chain' gridAdj (findPath ⟨1, 1⟩ ⟨1, 3⟩ g5 5 5)) :=
  ⟨by decide, c5_path_sound ⟨1, 1⟩ ⟨1, 3⟩ g5 5 5 (by decide)⟩

theorem gridOf_12 : gridOf 12 = 1 := by
  unfold gridOf CELL_SIZE
  norm_num

theorem gridOf_20 : gridOf 20 = 2 := by
  unfold gridOf CELL_SIZE
  norm_num

theorem cPath_eval : dispatchPath cSrc cTgt cMap4 4 4 = [⟨1, 1⟩] := by
  unfold dispatchPath
  rw [show cSrc.x = (12 : ℚ) from rfl, show cSrc.y = (12 : ℚ) from rfl,
    show cTgt.x = (20 : ℚ) from rfl, show cTgt.y = (20 : ℚ) from rfl,
    gridOf_12, gridOf_20]
  decide

theorem cPathAdj_eval : dispatchPath cSrcAdj cTgt cMap4 4 4 = [⟨1, 1⟩] := by
  unfold dispatchPath
  rw [show cSrcAdj.x = (12 : ℚ) from rfl, show cSrcAdj.y = (12 : ℚ) from rfl,
    show cTgt.x = (20 : ℚ) from rfl, show cTgt.y = (20 : ℚ) from rfl,
    gridOf_12, gridOf_20]
  decide

/-- C1 counterexample: the drag-release dispatch of handleEnd performs
no adjacency check: with a reachable target that is NOT in the source's
neighbor set, the dispatch still succeeds (three units created, source
garrison reduced by the squad size), so "for every dispatch, success
only under adjacency" is false on the code. -/
theorem c1_dispatch_cex :
    cTgt.id ∉ cSrc.neighbors ∧
    (handleEndDispatch cSrc cTgt cMap4 4 4).created.length = 3 ∧
    (handleEndDispatch cSrc cTgt cMap4 4 4).source.units = cSrc.units - 3 := by
  refine ⟨by decide, ?_, ?_⟩ <;>
    · simp only [handleEndDispatch, cPath_eval]
      decide

/-- C1 (amended): an AI-policy dispatch (sendSquad) succeeds only if the
target is in the source's neighbor set, the source has at least
squad-size+1 = 4 units, and the precomputed path is non-empty; a player
drag dispatch (handleEnd) succeeds only if the source has at least 4
units and the path is non-empty — adjacency is not required there.  In
both routines, success removes exactly 3 units from the source and
creates exactly 3 Units, each with the same target base, the same
precomputed path and the source's color. -/
theorem c1_dispatch_rules (source target : Base)
    (map : List (List TerrainType)) (cols rows : ℤ) :
    ((sendSquad source target map cols rows).created ≠ [] →
      target.id ∈ source.neighbors ∧ 4 ≤ source.units ∧
      dispatchPath source target map cols rows ≠ [] ∧
      (sendSquad source target map cols rows).source.units
        = source.units - 3 ∧
      (sendSquad source target map cols rows).created.length = 3 ∧
      ∀ u ∈ (sendSquad source target map cols rows).created,
        u.targetId = target.id ∧
        u.path = dispatchPath source target map cols rows ∧
        u.color = source.color) ∧
    ((handleEndDispatch source target map cols rows).created ≠ [] →
      4 ≤ source.units ∧
      dispatchPath source target map cols rows ≠ [] ∧
      (handleEndDispatch source target map cols rows).source.units
        = source.units - 3 ∧
      (handleEndDispatch source target map cols rows).created.length = 3 ∧
      ∀ u ∈ (handleEndDispatch source target map cols rows).created,
        u.targetId = target.id ∧
        u.path = dispatchPath source target map cols rows ∧
        u.color = source.color) := by
  constructor
  · intro hne
    simp only [sendSquad] at hne ⊢
    split_ifs at hne ⊢ with h1 h2 h3 h4
    all_goals try simp at hne
    refine ⟨h1, by omega, h3, rfl, by simp [squadOffsets], ?_⟩
    intro u hu
    simp only [squadOffsets, List.map_cons, List.map_nil, List.mem_cons,
      List.not_mem_nil, or_false] at hu
    rcases hu with rfl | rfl | rfl <;> exact ⟨rfl, rfl, rfl⟩
  · intro hne
    simp only [handleEndDispatch] at hne ⊢
    split_ifs at hne ⊢ with h1 h2 h3
    all_goals try simp at hne
    refine ⟨by omega, List.length_pos.mp h2, rfl, by simp [squadOffsets], ?_⟩
    intro u hu
    simp only [squadOffsets, List.map_cons, List.map_nil, List.mem_cons,
      List.not_mem_nil, or_false] at hu
    rcases hu with rfl | rfl | rfl <;> exact ⟨rfl, rfl, rfl⟩

theorem cSendAdj_ne : (sendSquad cSrcAdj cTgt cMap4 4 4).created ≠ [] := by
  simp only [sendSquad, cPathAdj_eval]
  decide

theorem c1_dispatch_rules_witness :
    (sendSquad cSrcAdj cTgt cMap4 4 4).created ≠ [] ∧
    (cTgt.id ∈ cSrcAdj.neighbors ∧ 4 ≤ cSrcAdj.units ∧
     dispatchPath cSrcAdj cTgt cMap4 4 4 ≠ [] ∧
     (sendSquad cSrcAdj cTgt cMap4 4 4).source.units = cSrcAdj.units - 3 ∧
     (sendSquad cSrcAdj cTgt cMap4 4 4).created.length = 3 ∧
     ∀ u ∈ (sendSquad cSrcAdj cTgt cMap4 4 4).created,
       u.targetId = cTgt.id ∧
       u.path = dispatchPath cSrcAdj cTgt cMap4 4 4 ∧
       u.color = cSrcAdj.color) :=
  ⟨cSendAdj_ne, (c1_dispatch_rules cSrcAdj cTgt cMap4 4 4).1 cSendAdj_ne⟩

end BlockWar
